import Mathlib

/-!
# UH Care — payment ledger and balance reconciliation, shallow embedding

This file embeds the payment/balance logic of the UH Care marketplace
application (Django) in Lean 4 and proves properties of it.

Conventions of the embedding:

* Monetary amounts are exact decimals with two fraction digits in the source
  (`DecimalField(decimal_places=2)`); they are represented here as integers in
  hundredths (paisa), so `1200.00` is `120000`.  Decimal arithmetic on such
  fields is exact, so integer arithmetic is a faithful model.
* Status and method enums are stored as strings in the source
  (`CharField` with choices); they are modelled as `String` and compared with
  string equality exactly as the querysets do.
* Nullable columns (`null=True`) become `Option`; non-nullable text columns
  with `blank=True` default to `""` as in Django.
* Foreign keys are record identifiers (`Nat`); the database is a record of
  lists, one per table, and querysets become `List.filter` chains that mirror
  the `filter`/`exclude` structure of the source.
* A negated equality lookup on a nullable column matches NULL rows: Django
  compiles `~Q(payment_proof_url='')` with an `IS NOT NULL` escape inside the
  negation, so a NULL proof URL satisfies it in a `filter`; in the
  doubly-negated `exclude` the NULL comparison is UNKNOWN and the row is
  dropped from the queryset.  Under either reading a NULL proof URL counts as
  "proof submitted".
-/

namespace UhCare

/-- Monetary amount in hundredths of a rupee (exact decimal, two places). -/
abbrev Money := Int

/-- Legacy `Appointment` model (`apps/appointments/models.py`); statuses
`pending | confirmed | in_progress | completed | cancelled | rejected`. -/
structure Appointment where
  id : Nat
  patient : Nat
  status : String
  total_amount : Money
deriving DecidableEq, Repr

/-- `ServiceBooking` model (same status choices as `Appointment`). -/
structure ServiceBooking where
  id : Nat
  patient : Nat
  status : String
  total_amount : Money
  cancellation_reason : String := ""
deriving DecidableEq, Repr

/-- `PersonalAppointment` model; statuses include `cancelled_by_patient` and
`cancelled_by_provider`; the computed total is `total_fee`. -/
structure PersonalAppointment where
  id : Nat
  patient : Nat
  status : String
  total_fee : Money
deriving DecidableEq, Repr

/-- `PharmacyOrder`: the model file is outside the excerpted sources, but every
field used here (`customer`, `status`, `total_amount`, linked `payments`) is
fixed by its callers in `apps/dashboard/views.py` and `apps/pharmacy/views.py`. -/
structure PharmacyOrder where
  id : Nat
  customer : Nat
  status : String
  total_amount : Money
deriving DecidableEq, Repr

/-- `EquipmentPurchase` model; statuses
`pending | confirmed | shipped | delivered | cancelled`. -/
structure EquipmentPurchase where
  id : Nat
  customer : Nat
  equipment : Nat
  quantity : Nat
  status : String
  total_amount : Money
deriving DecidableEq, Repr

/-- `EquipmentRental` model; statuses
`pending | confirmed | active | returned | cancelled`. -/
structure EquipmentRental where
  id : Nat
  customer : Nat
  equipment : Nat
  quantity : Nat
  status : String
  total_amount : Money
  cancelled_at : Option Nat := Option.none
deriving DecidableEq, Repr

/-- `Equipment` inventory row.  `available_units` is a `PositiveIntegerField`
in the schema but is manipulated as a plain Python integer in the views, so it
is an `Int` here and non-negativity is a property to prove. -/
structure Equipment where
  id : Nat
  available_units : Int
deriving DecidableEq, Repr

/-- `Payment` model (`apps/payments/models.py`).  Timestamps are abstract
`Nat` instants. -/
structure Payment where
  id : Nat
  patient : Nat
  amount : Money
  payment_method : Option String
  payment_status : String
  transaction_id : String
  payment_proof_url : Option String
  payment_proof_file : Option String
  verified_by : Option Nat
  verified_at : Option Nat
  payment_date : Option Nat
  notes : String
  appointment : Option Nat
  service_booking : Option Nat
  pharmacy_order : Option Nat
  equipment_purchase : Option Nat
  equipment_rental : Option Nat
deriving DecidableEq, Repr

/-- `PatientProfile` rows restricted to the field the payment flows touch. -/
structure PatientProfile where
  user : Nat
  total_balance : Money
deriving DecidableEq, Repr

/-- The relational state visible to the payment/balance logic. -/
structure DB where
  appointments : List Appointment
  service_bookings : List ServiceBooking
  personal_appointments : List PersonalAppointment
  pharmacy_orders : List PharmacyOrder
  equipment_purchases : List EquipmentPurchase
  equipment_rentals : List EquipmentRental
  equipment : List Equipment
  payments : List Payment
  profiles : List PatientProfile
deriving DecidableEq, Repr

/-- Empty database, convenient base for concrete states. -/
def DB.empty : DB :=
  ⟨[], [], [], [], [], [], [], [], []⟩

def findAppointment (db : DB) (i : Nat) : Option Appointment :=
  db.appointments.find? (fun a => a.id == i)

def findServiceBooking (db : DB) (i : Nat) : Option ServiceBooking :=
  db.service_bookings.find? (fun a => a.id == i)

def findPharmacyOrder (db : DB) (i : Nat) : Option PharmacyOrder :=
  db.pharmacy_orders.find? (fun a => a.id == i)

def findPurchase (db : DB) (i : Nat) : Option EquipmentPurchase :=
  db.equipment_purchases.find? (fun a => a.id == i)

def findRental (db : DB) (i : Nat) : Option EquipmentRental :=
  db.equipment_rentals.find? (fun a => a.id == i)

def findEquipment (db : DB) (i : Nat) : Option Equipment :=
  db.equipment.find? (fun a => a.id == i)

def findPayment (db : DB) (i : Nat) : Option Payment :=
  db.payments.find? (fun a => a.id == i)

/-- Join lookup for `Q(appointment__status='cancelled')`: a NULL link or a
missing row never matches. -/
def apptCancelled (db : DB) (p : Payment) : Bool :=
  match p.appointment with
  | some i =>
    match findAppointment db i with
    | some a => a.status == "cancelled"
    | none => false
  | none => false

/-- Join lookup for `Q(service_booking__status='cancelled')`. -/
def sbCancelled (db : DB) (p : Payment) : Bool :=
  match p.service_booking with
  | some i =>
    match findServiceBooking db i with
    | some a => a.status == "cancelled"
    | none => false
  | none => false

/-- Join lookup for `Q(pharmacy_order__status='cancelled')`. -/
def poCancelled (db : DB) (p : Payment) : Bool :=
  match p.pharmacy_order with
  | some i =>
    match findPharmacyOrder db i with
    | some a => a.status == "cancelled"
    | none => false
  | none => false

/-- Join lookup for `Q(equipment_purchase__status='cancelled')`. -/
def epCancelled (db : DB) (p : Payment) : Bool :=
  match p.equipment_purchase with
  | some i =>
    match findPurchase db i with
    | some a => a.status == "cancelled"
    | none => false
  | none => false

/-- Join lookup for `Q(equipment_rental__status='cancelled')`. -/
def erCancelled (db : DB) (p : Payment) : Bool :=
  match p.equipment_rental with
  | some i =>
    match findRental db i with
    | some a => a.status == "cancelled"
    | none => false
  | none => false

/-- `status__startswith` lookup, modelled on the character list so that it is
kernel-computable. -/
def strStartsWith (s pre : String) : Bool :=
  pre.data.isPrefixOf s.data

/-- `Q(payment_proof_file__isnull=False) | ~Q(transaction_id='') |
~Q(payment_proof_url='')` — the "proof already submitted" disjunction used by
both balance views.  `payment_proof_url` is nullable and the negated lookup
matches NULL rows (and the doubly-negated `exclude` drops them), so a NULL
URL counts as submitted. -/
def proofSubmitted (p : Payment) : Bool :=
  p.payment_proof_file.isSome || p.transaction_id != "" ||
    (match p.payment_proof_url with
     | some u => u != ""
     | none => true)

/-- Sum of the `amount` column over a list of payments
(`aggregate(total=Sum('amount'))`, with `None` coalesced to `0.00`). -/
def sumAmounts (l : List Payment) : Money :=
  (l.map (·.amount)).sum

/-- `Payment.objects.filter(patient=user, payment_status='paid')` total:
`total_paid` / `paid_amount` in both `patient_dashboard` and
`patient_balance`. -/
def total_paid (db : DB) (u : Nat) : Money :=
  sumAmounts (db.payments.filter (fun p => p.patient == u && p.payment_status == "paid"))

/-- `cash_committed`: unpaid cash-method payments
(identical queryset in `patient_dashboard` and `patient_balance`). -/
def cash_committed (db : DB) (u : Nat) : Money :=
  sumAmounts (db.payments.filter
    (fun p => p.patient == u && p.payment_status == "unpaid" && p.payment_method == some "cash"))

/-- `online_pending`: unpaid online-method payments with proof submitted
(identical queryset in `patient_dashboard` and `patient_balance`). -/
def online_pending (db : DB) (u : Nat) : Money :=
  sumAmounts (db.payments.filter
    (fun p => p.patient == u && p.payment_status == "unpaid" &&
      p.payment_method == some "online" && proofSubmitted p))

/-- Gross obligation as computed by `patient_dashboard`
(`apps/dashboard/views.py` lines 160–166): per-kind user totals with **no**
status exclusion. -/
def dash_gross_total (db : DB) (u : Nat) : Money :=
  ((db.service_bookings.filter (fun b => b.patient == u)).map (·.total_amount)).sum
  + ((db.personal_appointments.filter (fun a => a.patient == u)).map (·.total_fee)).sum
  + ((db.pharmacy_orders.filter (fun o => o.customer == u)).map (·.total_amount)).sum
  + ((db.equipment_purchases.filter (fun o => o.customer == u)).map (·.total_amount)).sum
  + ((db.equipment_rentals.filter (fun o => o.customer == u)).map (·.total_amount)).sum

/-- `stats['current_balance']` = `stats['outstanding_amount']` = `net_unpaid`
in `patient_dashboard`. -/
def dash_net_unpaid (db : DB) (u : Nat) : Money :=
  dash_gross_total db u - total_paid db u

/-- `total_unpaid_qs` of `patient_dashboard`: unpaid payments minus cash
commitments, minus online payments pending verification, minus payments tied
to cancelled domain objects (all five links). -/
def dash_total_unpaid_list (db : DB) (u : Nat) : List Payment :=
  ((((db.payments.filter (fun p => p.patient == u && p.payment_status == "unpaid")).filter
      (fun p => !(p.payment_method == some "cash" && p.payment_status == "unpaid"))).filter
      (fun p => !(p.payment_method == some "online" && p.payment_status == "unpaid" &&
        proofSubmitted p))).filter
      (fun p => !(apptCancelled db p || sbCancelled db p || poCancelled db p ||
        epCancelled db p || erCancelled db p)))

/-- `stats['pending_payments']` (actionable unpaid) in `patient_dashboard`. -/
def dash_total_unpaid (db : DB) (u : Nat) : Money :=
  sumAmounts (dash_total_unpaid_list db u)

/-- Gross obligation as computed by `patient_balance`
(`apps/dashboard/views.py` lines 300–309): cancelled records are excluded,
with a `startswith 'cancel'` exclusion for personal appointments. -/
def bal_gross_total (db : DB) (u : Nat) : Money :=
  (((db.service_bookings.filter (fun b => b.patient == u)).filter
      (fun b => !(b.status == "cancelled"))).map (·.total_amount)).sum
  + (((db.personal_appointments.filter (fun a => a.patient == u)).filter
      (fun a => !(strStartsWith a.status "cancel"))).map (·.total_fee)).sum
  + (((db.pharmacy_orders.filter (fun o => o.customer == u)).filter
      (fun o => !(o.status == "cancelled"))).map (·.total_amount)).sum
  + (((db.equipment_purchases.filter (fun o => o.customer == u)).filter
      (fun o => !(o.status == "cancelled"))).map (·.total_amount)).sum
  + (((db.equipment_rentals.filter (fun o => o.customer == u)).filter
      (fun o => !(o.status == "cancelled"))).map (·.total_amount)).sum

/-- `net_unpaid` of `patient_balance` (`gross_total - total_paid`). -/
def bal_net_unpaid (db : DB) (u : Nat) : Money :=
  bal_gross_total db u - total_paid db u

/-- `total_unpaid_qs` of `patient_balance`: like the dashboard's, but the
cancelled-link exclusion covers only four links — `service_booking` is *not*
among them (lines 330–335). -/
def bal_total_unpaid_list (db : DB) (u : Nat) : List Payment :=
  ((((db.payments.filter (fun p => p.patient == u && p.payment_status == "unpaid")).filter
      (fun p => !(p.payment_method == some "cash" && p.payment_status == "unpaid"))).filter
      (fun p => !(p.payment_method == some "online" && p.payment_status == "unpaid" &&
        proofSubmitted p))).filter
      (fun p => !(apptCancelled db p || poCancelled db p ||
        epCancelled db p || erCancelled db p)))

/-- `total_unpaid` (actionable unpaid) on the balance page. -/
def bal_total_unpaid (db : DB) (u : Nat) : Money :=
  sumAmounts (bal_total_unpaid_list db u)

/-- `cash_paid_total` of the `cash_commitments` view: paid cash payments. -/
def cash_paid_total (db : DB) (u : Nat) : Money :=
  sumAmounts (db.payments.filter
    (fun p => p.patient == u && p.payment_method == some "cash" && p.payment_status == "paid"))

/-- `cash_total` of the `cash_commitments` view
(`cash_paid_total + cash_committed_total`). -/
def cash_total (db : DB) (u : Nat) : Money :=
  cash_paid_total db u + cash_committed db u

/-! ## State-mutating operations -/

/-- Python truthiness of `payment.payment_method` (`None` and `""` are falsy). -/
def methodSet (p : Payment) : Bool :=
  match p.payment_method with
  | some m => m != ""
  | none => false

def updatePayment (db : DB) (p : Payment) : DB :=
  { db with payments := db.payments.map (fun q => if q.id == p.id then p else q) }

def updateRental (db : DB) (r : EquipmentRental) : DB :=
  { db with equipment_rentals :=
      db.equipment_rentals.map (fun q => if q.id == r.id then r else q) }

def updatePurchase (db : DB) (r : EquipmentPurchase) : DB :=
  { db with equipment_purchases :=
      db.equipment_purchases.map (fun q => if q.id == r.id then r else q) }

def updateOrder (db : DB) (r : PharmacyOrder) : DB :=
  { db with pharmacy_orders :=
      db.pharmacy_orders.map (fun q => if q.id == r.id then r else q) }

def updateEquipment (db : DB) (e : Equipment) : DB :=
  { db with equipment := db.equipment.map (fun q => if q.id == e.id then e else q) }

/-- `profile.total_balance -= amount; profile.save()`. -/
def decProfileBalance (db : DB) (u : Nat) (amt : Money) : DB :=
  { db with profiles := db.profiles.map (fun pr =>
      if pr.user == u then { pr with total_balance := pr.total_balance - amt } else pr) }

inductive SaveResult where
  | ok : DB → SaveResult
  | invalid : String → DB → SaveResult
deriving DecidableEq, Repr

def lockedMsg : String :=
  "Payment method is locked and cannot be changed once set."

/-- `Payment.save` (`apps/payments/models.py` lines 110–135): on an update,
once the stored `payment_method` is truthy, a save carrying a different method
raises `ValidationError` unless the `_allow_payment_method_change` override is
set; the raise happens before any write, so the database is unchanged. -/
def paymentSave (db : DB) (self : Payment) (allowChange : Bool) : SaveResult :=
  match findPayment db self.id with
  | some old =>
    if methodSet old && self.payment_method != old.payment_method && !allowChange then
      .invalid lockedMsg db
    else
      .ok (updatePayment db self)
  | none => .ok { db with payments := db.payments ++ [self] }

/-- Outcome of a request handler: `success` performed the action,
`info` redirected without acting, `rejected` is `messages.error` + redirect
with no state change at that point, `notFound` is the 404 path. -/
inductive ViewOutcome where
  | success
  | info (msg : String)
  | rejected (msg : String)
  | notFound
deriving DecidableEq, Repr

/-- Media-storage URL of an uploaded proof file
(`payment.payment_proof_file.url`, abstracted to the storage prefix). -/
def mediaUrl (fname : String) : String :=
  "/media/payments/proofs/" ++ fname

/-- `upload_payment_proof` (`apps/payments/views.py` lines 116–199), POST path.
`file` is the optional uploaded image name.  The view assigns
`payment.transaction_id` in memory before the method check, but no save runs
on any rejected path, so the stored row is untouched there. -/
def uploadProof (db : DB) (pid : Nat) (txn : String) (file : Option String) :
    ViewOutcome × DB :=
  match findPayment db pid with
  | none => (.notFound, db)
  | some p =>
    if p.payment_status == "paid" then
      (.info "This payment has already been verified.", db)
    else if txn == "" then
      (.rejected "Please provide a transaction ID.", db)
    else if methodSet p && p.payment_method != some "online" then
      (.rejected "Payment method for this record was previously set and cannot be changed to online.", db)
    else
      let p1 := { p with transaction_id := txn,
                         payment_method := some "online",
                         payment_status := "pending" }
      let p2 := match file with
        | some name =>
          let fname := "payment_" ++ toString p.id ++ "_" ++ name
          { p1 with payment_proof_file := some fname,
                    payment_proof_url := some (mediaUrl fname) }
        | none => p1
      match paymentSave db p2 false with
      | .ok db1 => (.success, db1)
      | .invalid m dbe => (.rejected m, dbe)

/-- Domain resolution of `confirm_payment`: the first non-null link among
`appointment`, `pharmacy_order`, `equipment_purchase`, `equipment_rental`
(the `service_booking` link is never examined there). -/
inductive PayDomain where
  | appointment (i : Nat)
  | pharmacy (i : Nat)
  | equipmentPurchase (i : Nat)
  | equipmentRental (i : Nat)
  | unlinked
deriving DecidableEq, Repr

def paymentDomain (p : Payment) : PayDomain :=
  match p.appointment with
  | some i => .appointment i
  | none =>
    match p.pharmacy_order with
    | some i => .pharmacy i
    | none =>
      match p.equipment_purchase with
      | some i => .equipmentPurchase i
      | none =>
        match p.equipment_rental with
        | some i => .equipmentRental i
        | none => .unlinked

/-- The per-domain precondition of `confirm_payment` (lines 239–258):
`completed` for appointments, `delivered` for pharmacy orders and equipment
purchases, `returned` **or** `active` for rentals; a payment with no resolved
domain is not gated at all. -/
def domainGuard (db : DB) (p : Payment) : Bool :=
  match paymentDomain p with
  | .appointment i =>
    (match findAppointment db i with
     | some a => a.status == "completed"
     | none => false)
  | .pharmacy i =>
    (match findPharmacyOrder db i with
     | some o => o.status == "delivered"
     | none => false)
  | .equipmentPurchase i =>
    (match findPurchase db i with
     | some o => o.status == "delivered"
     | none => false)
  | .equipmentRental i =>
    (match findRental db i with
     | some r => r.status == "returned" || r.status == "active"
     | none => false)
  | .unlinked => true

/-- `confirm_payment` (`apps/payments/views.py` lines 202–324), POST path:
patient self-confirmation of a cash payment.  The pharmacy activity-timeline
entry is a collaborator log and is not modelled. -/
def confirmPayment (db : DB) (pid : Nat) (now : Nat) : ViewOutcome × DB :=
  match findPayment db pid with
  | none => (.notFound, db)
  | some p =>
    if p.payment_status == "paid" then
      (.info "This payment has already been marked as paid.", db)
    else if !(domainGuard db p) then
      (.rejected "Payment can only be confirmed after delivery or completion.", db)
    else if methodSet p && p.payment_method != some "cash" then
      (.rejected "Payment method for this record was previously set and cannot be changed to cash.", db)
    else
      let p1 := { p with
        payment_method := if methodSet p then p.payment_method else some "cash",
        payment_status := "paid",
        payment_date := some now,
        verified_by := Option.none,
        verified_at := some now }
      match paymentSave db p1 false with
      | .ok db1 =>
        let db2 :=
          match paymentDomain p with
          | .appointment _ => decProfileBalance db1 p.patient p.amount
          | _ => db1
        (.success, db2)
      | .invalid m dbe => (.rejected m, dbe)

inductive VerifyAction where
  | approve
  | reject (reason : String)
deriving DecidableEq, Repr

/-- `verify_payment` (`apps/payments/views.py` lines 501–538), staff POST.
Note that neither branch inspects the current `payment_status`. -/
def verifyPayment (db : DB) (pid : Nat) (staff : Nat) (act : VerifyAction)
    (now : Nat) : ViewOutcome × DB :=
  match findPayment db pid with
  | none => (.notFound, db)
  | some p =>
    match act with
    | .approve =>
      let p1 := { p with payment_status := "paid", payment_date := some now,
                         verified_by := some staff, verified_at := some now }
      match paymentSave db p1 false with
      | .ok db1 => (.success, decProfileBalance db1 p.patient p.amount)
      | .invalid m dbe => (.rejected m, dbe)
    | .reject reason =>
      let p1 := { p with notes := reason }
      match paymentSave db p1 false with
      | .ok db1 => (.success, db1)
      | .invalid m dbe => (.rejected m, dbe)

/-- Refund side-effect of `cancel_purchase` applied to one linked payment:
only payments that are neither `refunded` nor `paid` are touched. -/
def refundPurchasePayment (actor now : Nat) (p : Payment) : Payment :=
  if p.payment_status != "refunded" && p.payment_status != "paid" then
    { p with payment_status := "refunded",
             notes := p.notes ++ "\nAuto-refunded on purchase cancel " ++ toString actor,
             verified_at := some now }
  else p

/-- `cancel_purchase` (`apps/equipment/views.py` lines 283–329), authorized
POST path: only pending purchases cancel; inventory is restored and linked
non-paid/non-refunded payments are marked refunded. -/
def cancelPurchase (db : DB) (oid : Nat) (actor now : Nat) : ViewOutcome × DB :=
  match findPurchase db oid with
  | none => (.notFound, db)
  | some pur =>
    if pur.status != "pending" then
      (.rejected "Only pending purchases can be cancelled.", db)
    else
      let db1 := updatePurchase db { pur with status := "cancelled" }
      let db2 :=
        match findEquipment db1 pur.equipment with
        | some e => updateEquipment db1
            { e with available_units := e.available_units + (pur.quantity : Int) }
        | none => db1
      let db3 := { db2 with payments := db2.payments.map (fun p =>
          if p.equipment_purchase == some oid then refundPurchasePayment actor now p
          else p) }
      (.success, db3)

/-- `cancel_rental` (`apps/equipment/views.py` lines 347–381), authorized POST
path: only pending rentals cancel; inventory is restored.  There is **no**
payment side-effect in this view. -/
def cancelRental (db : DB) (rid : Nat) (now : Nat) : ViewOutcome × DB :=
  match findRental db rid with
  | none => (.notFound, db)
  | some r =>
    if r.status != "pending" then
      (.rejected "Only pending rentals can be cancelled.", db)
    else
      let db1 := updateRental db { r with status := "cancelled", cancelled_at := some now }
      let db2 :=
        match findEquipment db1 r.equipment with
        | some e => updateEquipment db1
            { e with available_units := e.available_units + (r.quantity : Int) }
        | none => db1
      (.success, db2)

/-- `return_rental` (`apps/equipment/views.py` lines 385–419): only active or
confirmed rentals can be marked returned; inventory is restored
(`actual_return_date` is not modelled). -/
def returnRental (db : DB) (rid : Nat) : ViewOutcome × DB :=
  match findRental db rid with
  | none => (.notFound, db)
  | some r =>
    if r.status != "active" && r.status != "confirmed" then
      (.rejected "Only active or confirmed rentals can be marked returned.", db)
    else
      let db1 := updateRental db { r with status := "returned" }
      let db2 :=
        match findEquipment db1 r.equipment with
        | some e => updateEquipment db1
            { e with available_units := e.available_units + (r.quantity : Int) }
        | none => db1
      (.success, db2)

/-- Refund side-effect of the pharmacy `cancel_order` applied to one linked
payment (same guard as for purchases). -/
def refundOrderPayment (actor now : Nat) (p : Payment) : Payment :=
  if p.payment_status != "refunded" && p.payment_status != "paid" then
    { p with payment_status := "refunded",
             notes := p.notes ++ "\nAuto-refunded on order cancel by user " ++ toString actor,
             verified_at := some now }
  else p

/-- Pharmacy `cancel_order` (`apps/pharmacy/views.py` lines 416–462),
authorized POST path; medicine stock restoration is outside the modelled
state. -/
def cancelOrder (db : DB) (oid : Nat) (actor now : Nat) : ViewOutcome × DB :=
  match findPharmacyOrder db oid with
  | none => (.notFound, db)
  | some o =>
    if o.status != "pending" then
      (.rejected "Only pending orders can be cancelled.", db)
    else
      let db1 := updateOrder db { o with status := "cancelled" }
      let db2 := { db1 with payments := db1.payments.map (fun p =>
          if p.pharmacy_order == some oid then refundOrderPayment actor now p
          else p) }
      (.success, db2)

def updateServiceBooking (db : DB) (b : ServiceBooking) : DB :=
  { db with service_bookings :=
      db.service_bookings.map (fun q => if q.id == b.id then b else q) }

/-- Python falsiness of `cancellation_reason or cancellation_reason.strip()`:
empty or all-whitespace. -/
def isBlank (s : String) : Bool :=
  s.data.all (fun c => c.isWhitespace)

/-- `cancel_appointment` (`apps/appointments/views.py` lines 207–284),
patient POST path on a `ServiceBooking`.  `inTime` abstracts the real-time
comparison `hours_until_appointment >= 24`.  Only pending bookings cancel; a
blank reason is rejected; when cancelled in time the patient balance is
reduced and **every** payment linked via `service_booking` is bulk-updated to
`refunded` (`Payment.objects.filter(...).update(...)` — no status guard and
no `Payment.save` hook). -/
def cancelAppointment (db : DB) (aid : Nat) (reason : String) (inTime : Bool) :
    ViewOutcome × DB :=
  match findServiceBooking db aid with
  | none => (.notFound, db)
  | some b =>
    if b.status != "pending" then
      (.rejected "This appointment cannot be cancelled.", db)
    else if isBlank reason then
      (.rejected "Please provide a reason for cancellation.", db)
    else
      let db1 := updateServiceBooking db
        { b with status := "cancelled", cancellation_reason := reason }
      if inTime then
        let db2 := decProfileBalance db1 b.patient b.total_amount
        (.success, { db2 with payments := db2.payments.map (fun p =>
            if p.service_booking == some aid
            then { p with payment_status := "refunded" } else p) })
      else
        (.success, db1)

/-- A freshly created `Payment` row as produced by `Payment.objects.create`
in the checkout flows: status `unpaid`, no proof, no verification data. -/
def newPayment (pid owner : Nat) (amount : Money) (method : Option String) : Payment :=
  { id := pid, patient := owner, amount := amount,
    payment_method := method, payment_status := "unpaid",
    transaction_id := "", payment_proof_url := Option.none,
    payment_proof_file := Option.none, verified_by := Option.none,
    verified_at := Option.none, payment_date := Option.none, notes := "",
    appointment := Option.none, service_booking := Option.none,
    pharmacy_order := Option.none, equipment_purchase := Option.none,
    equipment_rental := Option.none }

/-- `rent_equipment` (`apps/equipment/views.py` lines 86–149), valid POST:
creates the rental, clamps the stock decrement at zero
(`max(0, available_units - quantity)`), and creates the linked payment with
the user-preference method prefilled. -/
def rentEquipment (db : DB) (eid owner rid q : Nat) (amount : Money)
    (payid : Nat) (defaultMethod : Option String) : ViewOutcome × DB :=
  match findEquipment db eid with
  | none => (.notFound, db)
  | some e =>
    if e.available_units < 1 then
      (.rejected "This equipment is currently unavailable.", db)
    else
      let rental : EquipmentRental :=
        { id := rid, customer := owner, equipment := eid, quantity := q,
          status := "pending", total_amount := amount }
      let db1 := { db with equipment_rentals := db.equipment_rentals ++ [rental] }
      let db2 := updateEquipment db1
        { e with available_units := max 0 (e.available_units - (q : Int)) }
      let pay := { newPayment payid owner amount defaultMethod with
                   equipment_rental := some rid }
      (.success, { db2 with payments := db2.payments ++ [pay] })

/-- `buy_equipment` (`apps/equipment/views.py` lines 153–216), valid POST:
same stock clamp, purchase creation and linked payment. -/
def buyEquipment (db : DB) (eid owner oid q : Nat) (amount : Money)
    (payid : Nat) (defaultMethod : Option String) : ViewOutcome × DB :=
  match findEquipment db eid with
  | none => (.notFound, db)
  | some e =>
    if e.available_units < 1 then
      (.rejected "This equipment is currently unavailable.", db)
    else
      let pur : EquipmentPurchase :=
        { id := oid, customer := owner, equipment := eid, quantity := q,
          status := "pending", total_amount := amount }
      let db1 := { db with equipment_purchases := db.equipment_purchases ++ [pur] }
      let db2 := updateEquipment db1
        { e with available_units := max 0 (e.available_units - (q : Int)) }
      let pay := { newPayment payid owner amount defaultMethod with
                   equipment_purchase := some oid }
      (.success, { db2 with payments := db2.payments ++ [pay] })

/-- Invariant of claim C9: no equipment row has negative available units. -/
def unitsNonneg (db : DB) : Prop :=
  ∀ e ∈ db.equipment, 0 ≤ e.available_units

/-! ## Helper lemmas -/

/-- After replacing every element carrying the key of `p'` by `p'`, the first
element found under that key is `p'`, provided the first match used to be `p`
and `p'` keeps its key. -/
theorem find?_map_update {α : Type} (key : α → Nat) (l : List α) (k : Nat)
    (p p' : α) (h : l.find? (fun a => key a == k) = some p)
    (hid : key p' = key p) :
    (l.map (fun q => if key q == key p' then p' else q)).find?
      (fun a => key a == k) = some p' := by
  induction l with
  | nil => simp at h
  | cons a l ih =>
    have hp := List.find?_some h
    have hpk : key p = k := by simpa using hp
    by_cases ha : (key a == k) = true
    · have h' := (@List.find?_cons_of_pos _ (fun x => key x == k) a l ha).symm.trans h
      have hap : a = p := by injection h'
      have hhead : (fun q => if key q == key p' then p' else q) a = p' := by
        simp [hap, hid]
      simp only [List.map_cons, hhead]
      apply List.find?_cons_of_pos
      simp [hid, hpk]
    · rw [@List.find?_cons_of_neg _ (fun x => key x == k) a l ha] at h
      have hak : ¬ key a = k := by simpa using ha
      have hane : key a ≠ key p' := by rw [hid, hpk]; exact hak
      have hhead : (fun q => if key q == key p' then p' else q) a = a := by
        simp [hane]
      simp only [List.map_cons, hhead]
      rw [@List.find?_cons_of_neg _ (fun x => key x == k) a _ ha]
      exact ih h

/-- Four chained `filter`s collapse to a single conjunctive `filter`. -/
theorem filter_chain4 {α : Type} (l : List α) (f1 f2 f3 f4 : α → Bool) :
    (((l.filter f1).filter f2).filter f3).filter f4
      = l.filter (fun a => f1 a && f2 a && f3 a && f4 a) := by
  simp only [List.filter_filter]
  exact List.filter_congr (fun x _ => by
    cases h1 : f1 x <;> cases h2 : f2 x <;> cases h3 : f3 x <;> cases h4 : f4 x <;>
      simp [h1, h2, h3, h4])

/-! ## C1 — the two net-unpaid call sites disagree on cancelled chargeables -/

/-- A user with a single *cancelled* service booking of `100.00` and no
payments. -/
def exC1 : DB :=
  { DB.empty with service_bookings :=
      [{ id := 1, patient := 1, status := "cancelled", total_amount := 10000 }] }

/-- **C1**: the dashboard summary and the detailed balance page do *not*
always agree on the net unpaid figure: `patient_dashboard` builds
`gross_total` without excluding cancelled records, while `patient_balance`
excludes them, so a user with one cancelled `100.00` booking sees
`current_balance = 100.00` on the dashboard and `net_unpaid = 0.00` on the
balance page — contradicting the dashboard code comments, which claim both
pages show the same value. -/
theorem C1_dashboard_vs_balance_net_unpaid :
    dash_net_unpaid exC1 1 = 10000 ∧ bal_net_unpaid exC1 1 = 0 ∧
    dash_net_unpaid exC1 1 ≠ bal_net_unpaid exC1 1 :=
  ⟨by decide, by decide, by decide⟩

/-! ## C2 — cancelled chargeables and the classifier buckets -/

/-- A cancelled pharmacy order of `500.00` whose linked payment is an unpaid
cash commitment. -/
def exC2 : DB :=
  { DB.empty with
    pharmacy_orders :=
      [{ id := 1, customer := 1, status := "cancelled", total_amount := 50000 }],
    payments :=
      [{ newPayment 1 1 50000 (some "cash") with pharmacy_order := some 1 }] }

/-- **C2, counterexample**: a payment linked to a *cancelled* pharmacy order
still lands in the `cash_committed` bucket (and `total_paid`,
`online_pending` behave likewise): the cancelled-link exclusion is applied
only to the actionable-unpaid queryset, not to every classifier bucket. -/
theorem C2_counterexample :
    (findPharmacyOrder exC2 1).map (·.status) = some "cancelled" ∧
    (exC2.payments.map (fun p => poCancelled exC2 p)) = [true] ∧
    cash_committed exC2 1 = 50000 :=
  ⟨by decide, by decide, by decide⟩

/-- **C2, amended**: cancelled chargeables contribute nothing to the balance
page's `gross_total` (per-kind: status `cancelled`, or any
`cancel`-prefixed status for personal appointments), and every payment in
the balance page's actionable-unpaid queryset has no cancelled linked
appointment, pharmacy order, equipment purchase or equipment rental; the
exclusion does **not** extend to the other buckets (see the
counterexample), nor to the `service_booking` link, nor to the dashboard's
`gross_total`. -/
theorem C2_amended :
    (∀ (db : DB) (u : Nat) (b : ServiceBooking), b.status = "cancelled" →
      bal_gross_total { db with service_bookings := b :: db.service_bookings } u
        = bal_gross_total db u) ∧
    (∀ (db : DB) (u : Nat) (a : PersonalAppointment), strStartsWith a.status "cancel" = true →
      bal_gross_total { db with personal_appointments := a :: db.personal_appointments } u
        = bal_gross_total db u) ∧
    (∀ (db : DB) (u : Nat) (o : PharmacyOrder), o.status = "cancelled" →
      bal_gross_total { db with pharmacy_orders := o :: db.pharmacy_orders } u
        = bal_gross_total db u) ∧
    (∀ (db : DB) (u : Nat) (o : EquipmentPurchase), o.status = "cancelled" →
      bal_gross_total { db with equipment_purchases := o :: db.equipment_purchases } u
        = bal_gross_total db u) ∧
    (∀ (db : DB) (u : Nat) (o : EquipmentRental), o.status = "cancelled" →
      bal_gross_total { db with equipment_rentals := o :: db.equipment_rentals } u
        = bal_gross_total db u) ∧
    (∀ (db : DB) (u : Nat) (p : Payment), p ∈ bal_total_unpaid_list db u →
      apptCancelled db p = false ∧ poCancelled db p = false ∧
      epCancelled db p = false ∧ erCancelled db p = false) := by
  refine ⟨?_, ?_, ?_, ?_, ?_, ?_⟩
  · intro db u b hb
    by_cases hu : (b.patient == u) = true <;>
      simp [bal_gross_total, List.filter_cons, hu, hb]
  · intro db u a ha
    by_cases hu : (a.patient == u) = true <;>
      simp [bal_gross_total, List.filter_cons, hu, ha]
  · intro db u o ho
    by_cases hu : (o.customer == u) = true <;>
      simp [bal_gross_total, List.filter_cons, hu, ho]
  · intro db u o ho
    by_cases hu : (o.customer == u) = true <;>
      simp [bal_gross_total, List.filter_cons, hu, ho]
  · intro db u o ho
    by_cases hu : (o.customer == u) = true <;>
      simp [bal_gross_total, List.filter_cons, hu, ho]
  · intro db u p hp
    have h2 := (List.mem_filter.mp hp).2
    simp only [Bool.not_eq_true', Bool.or_eq_false_iff] at h2
    exact ⟨h2.1.1.1, h2.1.1.2, h2.1.2, h2.2⟩

/-- A database exercising every hypothesis of `C2_amended`: user 1 has one
actionable unpaid payment (no method chosen yet) and we prepend one cancelled
record of each chargeable kind. -/
def exC2w : DB :=
  { DB.empty with
    payments := [{ newPayment 7 1 2500 Option.none with pharmacy_order := some 3 }],
    pharmacy_orders := [{ id := 3, customer := 1, status := "pending", total_amount := 2500 }] }

theorem C2_amended_witness :
    (bal_gross_total { exC2w with service_bookings :=
        [{ id := 9, patient := 1, status := "cancelled", total_amount := 11100 }] } 1
      = bal_gross_total exC2w 1) ∧
    (bal_gross_total { exC2w with personal_appointments :=
        [{ id := 9, patient := 1, status := "cancelled_by_patient", total_fee := 22200 }] } 1
      = bal_gross_total exC2w 1) ∧
    (bal_gross_total { exC2w with pharmacy_orders :=
        { id := 9, customer := 1, status := "cancelled", total_amount := 33300 }
          :: exC2w.pharmacy_orders } 1
      = bal_gross_total exC2w 1) ∧
    (bal_gross_total { exC2w with equipment_purchases :=
        [{ id := 9, customer := 1, equipment := 1, quantity := 1,
           status := "cancelled", total_amount := 44400 }] } 1
      = bal_gross_total exC2w 1) ∧
    (bal_gross_total { exC2w with equipment_rentals :=
        [{ id := 9, customer := 1, equipment := 1, quantity := 1,
           status := "cancelled", total_amount := 55500 }] } 1
      = bal_gross_total exC2w 1) ∧
    (apptCancelled exC2w { newPayment 7 1 2500 Option.none with pharmacy_order := some 3 } = false) :=
  ⟨C2_amended.1 exC2w 1 _ rfl,
   C2_amended.2.1 exC2w 1 _ (by decide),
   C2_amended.2.2.1 exC2w 1 _ rfl,
   C2_amended.2.2.2.1 exC2w 1 _ rfl,
   C2_amended.2.2.2.2.1 exC2w 1 _ rfl,
   (C2_amended.2.2.2.2.2 exC2w 1 _ (by decide)).1⟩

/-- A save that keeps the payment method (or starts from an unset one) passes
the immutability guard and writes the row. -/
theorem paymentSave_ok_of_same_method (db : DB) (p p' : Payment)
    (hfind : findPayment db p'.id = some p)
    (hmm : methodSet p = false ∨ p'.payment_method = p.payment_method) :
    paymentSave db p' false = .ok (updatePayment db p') := by
  unfold paymentSave
  rw [hfind]
  rcases hmm with h | h
  · simp [h]
  · simp [h]

/-- After `updatePayment`, the row found under the old id is the new row. -/
theorem findPayment_updatePayment (db : DB) (pid : Nat) (p p' : Payment)
    (hfind : findPayment db pid = some p) (hid : p'.id = p.id) :
    findPayment (updatePayment db p') pid = some p' := by
  have h' : db.payments.find? (fun a => a.id == pid) = some p := hfind
  show (db.payments.map (fun q => if q.id == p'.id then p' else q)).find?
      (fun a => a.id == pid) = some p'
  exact find?_map_update (fun x => x.id) db.payments pid p p' h' hid

/-! ## C3 — payment method immutability -/

/-- A payment whose stored method is the non-null empty string, reachable by
posting an empty `payment_method` to `initiate_payment`. -/
def exC3e : DB := { DB.empty with payments := [newPayment 2 1 5000 (some "")] }

/-- **C3, counterexample**: the save guard checks Python *truthiness*, not
nullness, of the stored method, so a payment whose `payment_method` is the
non-null empty string is re-saved with a different method without any
`ValidationError` and the stored method changes. -/
theorem C3_counterexample :
    (findPayment exC3e 2).map (·.payment_method) = some (some "") ∧
    paymentSave exC3e (newPayment 2 1 5000 (some "online")) false
      = .ok (updatePayment exC3e (newPayment 2 1 5000 (some "online"))) ∧
    (findPayment (updatePayment exC3e (newPayment 2 1 5000 (some "online"))) 2).map
      (·.payment_method) = some (some "online") :=
  ⟨by decide, by decide, by decide⟩

/-- **C3, amended**: for a stored payment whose `payment_method` is already
set to a *truthy* value (non-null and non-empty), an update save that carries
a different method without the `_allow_payment_method_change` override fails
with the `ValidationError` message, and the database — in particular the
stored payment with all its fields — is unchanged; a non-null empty-string
method is falsy in the guard and escapes the lock (see the
counterexample). -/
theorem C3_payment_method_immutable (db : DB) (p q : Payment) (m : String)
    (hfind : findPayment db q.id = some p)
    (hm : p.payment_method = some m) (hm0 : m ≠ "")
    (hne : q.payment_method ≠ p.payment_method) :
    paymentSave db q false = .invalid lockedMsg db ∧
    findPayment db q.id = some p := by
  refine ⟨?_, hfind⟩
  unfold paymentSave
  rw [hfind]
  have hset : methodSet p = true := by
    simp [methodSet, hm, bne_iff_ne]
    exact hm0
  have hbne : (q.payment_method != p.payment_method) = true := by
    simpa [bne_iff_ne] using hne
  simp [hset, hbne]

/-- Concrete state for the C3 witness: one cash-locked payment. -/
def exC3 : DB := { DB.empty with payments := [newPayment 1 1 10000 (some "cash")] }

theorem C3_witness :
    paymentSave exC3 (newPayment 1 1 10000 (some "online")) false
      = .invalid lockedMsg exC3 ∧
    findPayment exC3 (newPayment 1 1 10000 (some "online")).id
      = some (newPayment 1 1 10000 (some "cash")) :=
  C3_payment_method_immutable exC3 (newPayment 1 1 10000 (some "cash"))
    (newPayment 1 1 10000 (some "online")) "cash"
    (by decide) rfl (by decide) (by decide)

/-! ## C9 — available units never go negative -/

/-- Replacing one equipment row by a row with non-negative units preserves
the non-negativity invariant. -/
theorem unitsNonneg_update (db : DB) (e : Equipment) (h : unitsNonneg db)
    (he : 0 ≤ e.available_units) : unitsNonneg (updateEquipment db e) := by
  intro e' he'
  simp only [updateEquipment, List.mem_map] at he'
  obtain ⟨a, ha, rfl⟩ := he'
  by_cases hc : (a.id == e.id) = true
  · simpa [hc] using he
  · simpa [hc] using h a ha

/-- **C9**: every checkout decrement clamps at zero
(`max(0, available_units - quantity)`), and cancellation/return restoration
only adds units, so each equipment operation preserves
`available_units ≥ 0` on every row. -/
theorem C9_available_units_nonneg (db : DB) (h : unitsNonneg db) :
    (∀ eid owner rid q amount payid m,
       unitsNonneg (rentEquipment db eid owner rid q amount payid m).2) ∧
    (∀ eid owner oid q amount payid m,
       unitsNonneg (buyEquipment db eid owner oid q amount payid m).2) ∧
    (∀ oid actor now, unitsNonneg (cancelPurchase db oid actor now).2) ∧
    (∀ rid now, unitsNonneg (cancelRental db rid now).2) ∧
    (∀ rid, unitsNonneg (returnRental db rid).2) := by
  refine ⟨?_, ?_, ?_, ?_, ?_⟩
  · intro eid owner rid q amount payid m
    unfold rentEquipment
    cases heq : findEquipment db eid with
    | none => exact h
    | some e =>
      by_cases hav : e.available_units < 1
      · simpa [hav] using h
      · simp only [hav, if_false]
        intro e' he'
        exact unitsNonneg_update { db with equipment_rentals := _ } _ h
          (le_max_left 0 _) e' he'
  · intro eid owner oid q amount payid m
    unfold buyEquipment
    cases heq : findEquipment db eid with
    | none => exact h
    | some e =>
      by_cases hav : e.available_units < 1
      · simpa [hav] using h
      · simp only [hav, if_false]
        intro e' he'
        exact unitsNonneg_update { db with equipment_purchases := _ } _ h
          (le_max_left 0 _) e' he'
  · intro oid actor now
    unfold cancelPurchase
    cases hpu : findPurchase db oid with
    | none => exact h
    | some pur =>
      by_cases hst : pur.status != "pending"
      · simpa [hst] using h
      · simp only [hst, if_false]
        cases heq : findEquipment (updatePurchase db { pur with status := "cancelled" }) pur.equipment with
        | none =>
          intro e' he'
          exact h e' he'
        | some e =>
          intro e' he'
          refine unitsNonneg_update (updatePurchase db { pur with status := "cancelled" }) _ h ?_ e' he'
          have h0 : 0 ≤ e.available_units :=
            h e (List.mem_of_find?_eq_some heq)
          have hq : (0 : Int) ≤ (pur.quantity : Int) := Int.ofNat_nonneg _
          show 0 ≤ e.available_units + (pur.quantity : Int)
          exact add_nonneg h0 hq
  · intro rid now
    unfold cancelRental
    cases hr : findRental db rid with
    | none => exact h
    | some r =>
      by_cases hst : r.status != "pending"
      · simpa [hst] using h
      · simp only [hst, if_false]
        cases heq : findEquipment (updateRental db { r with status := "cancelled", cancelled_at := some now }) r.equipment with
        | none =>
          intro e' he'
          exact h e' he'
        | some e =>
          intro e' he'
          refine unitsNonneg_update (updateRental db { r with status := "cancelled", cancelled_at := some now }) _ h ?_ e' he'
          have h0 : 0 ≤ e.available_units :=
            h e (List.mem_of_find?_eq_some heq)
          have hq : (0 : Int) ≤ (r.quantity : Int) := Int.ofNat_nonneg _
          show 0 ≤ e.available_units + (r.quantity : Int)
          exact add_nonneg h0 hq
  · intro rid
    unfold returnRental
    cases hr : findRental db rid with
    | none => exact h
    | some r =>
      by_cases hst : r.status != "active" && r.status != "confirmed"
      · simpa [hst] using h
      · simp only [hst, if_false]
        cases heq : findEquipment (updateRental db { r with status := "returned" }) r.equipment with
        | none =>
          intro e' he'
          exact h e' he'
        | some e =>
          intro e' he'
          refine unitsNonneg_update (updateRental db { r with status := "returned" }) _ h ?_ e' he'
          have h0 : 0 ≤ e.available_units :=
            h e (List.mem_of_find?_eq_some heq)
          have hq : (0 : Int) ≤ (r.quantity : Int) := Int.ofNat_nonneg _
          show 0 ≤ e.available_units + (r.quantity : Int)
          exact add_nonneg h0 hq

/-- Concrete state for the C9 witness: one equipment row with 3 units. -/
def exC9 : DB := { DB.empty with equipment := [{ id := 1, available_units := 3 }] }

theorem C9_witness :
    unitsNonneg (rentEquipment exC9 1 1 1 5 40000 1 Option.none).2 ∧
    unitsNonneg (cancelRental exC9 1 0).2 :=
  ⟨(C9_available_units_nonneg exC9 (by
      intro e he
      simp only [exC9, DB.empty, List.mem_singleton] at he
      subst he
      decide)).1 1 1 1 5 40000 1 Option.none,
   (C9_available_units_nonneg exC9 (by
      intro e he
      simp only [exC9, DB.empty, List.mem_singleton] at he
      subst he
      decide)).2.2.2.1 1 0⟩

/-! ## C10 — staff rejection only touches the notes field -/

/-- **C10**: the staff reject action writes the rejection reason into `notes`
and nothing else: the stored row afterwards is exactly the old row with
`notes` replaced, so `payment_status`, `payment_method`, `amount`,
`verified_by` and `verified_at` are untouched and no distinct "rejected"
status exists. -/
theorem C10_reject_updates_only_notes (db : DB) (pid staff : Nat)
    (reason : String) (now : Nat) (p : Payment)
    (hfind : findPayment db pid = some p) :
    verifyPayment db pid staff (.reject reason) now
      = (.success, updatePayment db { p with notes := reason }) ∧
    findPayment (verifyPayment db pid staff (.reject reason) now).2 pid
      = some { p with notes := reason } := by
  have hp := List.find?_some hfind
  have hid : p.id = pid := by simpa using hp
  have hsave : paymentSave db { p with notes := reason } false
      = .ok (updatePayment db { p with notes := reason }) := by
    apply paymentSave_ok_of_same_method
    · show findPayment db p.id = some p
      rw [hid]; exact hfind
    · exact Or.inr rfl
  have hmain : verifyPayment db pid staff (.reject reason) now
      = (.success, updatePayment db { p with notes := reason }) := by
    unfold verifyPayment
    rw [hfind]
    dsimp only
    rw [hsave]
  refine ⟨hmain, ?_⟩
  rw [hmain]
  exact findPayment_updatePayment db pid p { p with notes := reason } hfind rfl

/-- A pending online payment awaiting verification. -/
def exC10p : Payment :=
  { newPayment 1 1 30000 (some "online") with payment_status := "pending" }

def exC10 : DB := { DB.empty with payments := [exC10p] }

theorem C10_witness :
    verifyPayment exC10 1 9 (.reject "insufficient proof") 5
      = (.success, updatePayment exC10 { exC10p with notes := "insufficient proof" }) ∧
    findPayment (verifyPayment exC10 1 9 (.reject "insufficient proof") 5).2 1
      = some { exC10p with notes := "insufficient proof" } :=
  C10_reject_updates_only_notes exC10 1 9 "insufficient proof" 5 exC10p rfl

/-! ## C7 — proof upload: unpaid → pending only for online with transaction id -/

/-- **C7**: submitting proof with an empty transaction id is rejected with the
database unchanged; with a non-empty transaction id the upload is rejected
(unchanged) when a different method is already locked; otherwise it succeeds
and the stored row has method `online`, status `pending`, the submitted
transaction id, and the proof file and derived URL when one was uploaded. -/
theorem C7_upload_proof_characterization (db : DB) (pid : Nat) (txn : String)
    (file : Option String) (p : Payment)
    (hfind : findPayment db pid = some p) (hnp : p.payment_status ≠ "paid") :
    (uploadProof db pid "" file = (.rejected "Please provide a transaction ID.", db)) ∧
    (txn ≠ "" → methodSet p = true → p.payment_method ≠ some "online" →
      uploadProof db pid txn file
        = (.rejected "Payment method for this record was previously set and cannot be changed to online.", db)) ∧
    (txn ≠ "" → (methodSet p = false ∨ p.payment_method = some "online") →
      (uploadProof db pid txn file).1 = .success ∧
      ∃ p2, findPayment (uploadProof db pid txn file).2 pid = some p2 ∧
        p2.payment_method = some "online" ∧
        p2.payment_status = "pending" ∧
        p2.transaction_id = txn ∧
        (file = Option.none →
          p2.payment_proof_file = p.payment_proof_file ∧
          p2.payment_proof_url = p.payment_proof_url) ∧
        (∀ name, file = some name →
          p2.payment_proof_file = some ("payment_" ++ toString p.id ++ "_" ++ name) ∧
          p2.payment_proof_url = some (mediaUrl ("payment_" ++ toString p.id ++ "_" ++ name)))) := by
  have hp := List.find?_some hfind
  have hid : p.id = pid := by simpa using hp
  have hst : (p.payment_status == "paid") = false := by
    simpa using hnp
  refine ⟨?_, ?_, ?_⟩
  · unfold uploadProof
    rw [hfind]
    simp [hst]
  · intro htxn hms hmne
    have h1 : (txn == "") = false := by simpa using htxn
    have h2 : (p.payment_method != some "online") = true := by
      simpa using hmne
    unfold uploadProof
    rw [hfind]
    simp [hst, h1, hms, h2]
  · intro htxn hw
    have h1 : (txn == "") = false := by simpa using htxn
    have hcond : (methodSet p && p.payment_method != some "online") = false := by
      rcases hw with h | h
      · simp [h]
      · simp [h]
    cases file with
    | none =>
      have hsave : paymentSave db
          { p with transaction_id := txn, payment_method := some "online",
                   payment_status := "pending" } false
          = .ok (updatePayment db
          { p with transaction_id := txn, payment_method := some "online",
                   payment_status := "pending" }) := by
        apply paymentSave_ok_of_same_method
        · show findPayment db p.id = some p
          rw [hid]; exact hfind
        · rcases hw with h | h
          · exact Or.inl h
          · exact Or.inr (by simp [h])
      have hmain : uploadProof db pid txn Option.none
          = (.success, updatePayment db
          { p with transaction_id := txn, payment_method := some "online",
                   payment_status := "pending" }) := by
        unfold uploadProof
        rw [hfind]
        simp only [hst, h1, hcond, Bool.false_eq_true, if_false, if_neg]
        rw [hsave]
      rw [hmain]
      refine ⟨rfl, _, findPayment_updatePayment db pid p _ hfind rfl,
        rfl, rfl, rfl, ?_, ?_⟩
      · intro _
        exact ⟨rfl, rfl⟩
      · intro nm hnm
        exact Option.noConfusion hnm
    | some name =>
      have hsave : paymentSave db
          { p with transaction_id := txn, payment_method := some "online",
                   payment_status := "pending",
                   payment_proof_file := some ("payment_" ++ toString p.id ++ "_" ++ name),
                   payment_proof_url := some (mediaUrl ("payment_" ++ toString p.id ++ "_" ++ name)) } false
          = .ok (updatePayment db
          { p with transaction_id := txn, payment_method := some "online",
                   payment_status := "pending",
                   payment_proof_file := some ("payment_" ++ toString p.id ++ "_" ++ name),
                   payment_proof_url := some (mediaUrl ("payment_" ++ toString p.id ++ "_" ++ name)) }) := by
        apply paymentSave_ok_of_same_method
        · show findPayment db p.id = some p
          rw [hid]; exact hfind
        · rcases hw with h | h
          · exact Or.inl h
          · exact Or.inr (by simp [h])
      have hmain : uploadProof db pid txn (some name)
          = (.success, updatePayment db
          { p with transaction_id := txn, payment_method := some "online",
                   payment_status := "pending",
                   payment_proof_file := some ("payment_" ++ toString p.id ++ "_" ++ name),
                   payment_proof_url := some (mediaUrl ("payment_" ++ toString p.id ++ "_" ++ name)) }) := by
        unfold uploadProof
        rw [hfind]
        simp only [hst, h1, hcond, Bool.false_eq_true, if_false, if_neg]
        rw [hsave]
      rw [hmain]
      refine ⟨rfl, _, findPayment_updatePayment db pid p _ hfind rfl,
        rfl, rfl, rfl, ?_, ?_⟩
      · intro hno
        exact Option.noConfusion hno
      · intro nm hnm
        injection hnm with hh
        subst hh
        exact ⟨rfl, rfl⟩

/-- An unpaid payment with no method chosen yet. -/
def exC7 : DB := { DB.empty with payments := [newPayment 1 1 25000 Option.none] }

theorem C7_witness :
    (uploadProof exC7 1 "" (some "shot.png")
      = (.rejected "Please provide a transaction ID.", exC7)) ∧
    ((uploadProof exC7 1 "TXN42" (some "shot.png")).1 = .success ∧
      ∃ p2, findPayment (uploadProof exC7 1 "TXN42" (some "shot.png")).2 1 = some p2 ∧
        p2.payment_method = some "online" ∧
        p2.payment_status = "pending" ∧
        p2.transaction_id = "TXN42" ∧
        ((some "shot.png" : Option String) = Option.none →
          p2.payment_proof_file = (newPayment 1 1 25000 Option.none).payment_proof_file ∧
          p2.payment_proof_url = (newPayment 1 1 25000 Option.none).payment_proof_url) ∧
        (∀ name, (some "shot.png" : Option String) = some name →
          p2.payment_proof_file
            = some ("payment_" ++ toString (newPayment 1 1 25000 Option.none).id ++ "_" ++ name) ∧
          p2.payment_proof_url
            = some (mediaUrl ("payment_" ++ toString (newPayment 1 1 25000 Option.none).id ++ "_" ++ name)))) :=
  ⟨(C7_upload_proof_characterization exC7 1 "TXN42" (some "shot.png")
      (newPayment 1 1 25000 Option.none) rfl (by decide)).1,
   (C7_upload_proof_characterization exC7 1 "TXN42" (some "shot.png")
      (newPayment 1 1 25000 Option.none) rfl (by decide)).2.2 (by decide) (Or.inl rfl)⟩

/-! ## C6 — `paid` is preserved, but `refunded` is not terminal -/

/-- A refunded online payment. -/
def exC6p : Payment :=
  { newPayment 1 1 15000 (some "online") with payment_status := "refunded" }

def exC6 : DB :=
  { DB.empty with
    payments := [exC6p],
    profiles := [{ user := 1, total_balance := 15000 }] }

/-- A paid online payment on a still-pending service booking. -/
def exC6cp : Payment :=
  { newPayment 3 1 120000 (some "online") with
    payment_status := "paid", service_booking := some 4 }

def exC6c : DB :=
  { DB.empty with
    service_bookings :=
      [{ id := 4, patient := 1, status := "pending", total_amount := 120000 }],
    payments := [exC6cp],
    profiles := [{ user := 1, total_balance := 120000 }] }

/-- **C6, counterexample**: neither claimed terminality holds.  The staff
verification endpoint has no status guard, so approving a `refunded` payment
moves it to `paid`; and cancelling a pending service booking in time
bulk-refunds every linked payment with no status guard, so a `paid` payment
moves to `refunded`. -/
theorem C6_counterexample :
    (findPayment exC6 1).map (·.payment_status) = some "refunded" ∧
    (findPayment (verifyPayment exC6 1 9 .approve 5).2 1).map (·.payment_status)
      = some "paid" ∧
    (findPayment exC6c 3).map (·.payment_status) = some "paid" ∧
    (cancelAppointment exC6c 4 "change of plans" true).1 = .success ∧
    (findPayment (cancelAppointment exC6c 4 "change of plans" true).2 3).map
      (·.payment_status) = some "refunded" :=
  ⟨by decide, by decide, by decide, by decide, by decide⟩

/-- **C6, amended**: proof upload and self-confirmation no-op on a paid
payment, and the purchase/pharmacy cancellation refund side-effects skip
both `paid` and `refunded` payments — but neither state is terminal: staff
approval unconditionally rewrites any payment, refunded included, to
`paid`, and service-booking cancellation bulk-refunds every linked payment,
paid included, to `refunded`. -/
theorem C6_amended :
    (∀ db pid txn file p, findPayment db pid = some p →
      p.payment_status = "paid" →
      uploadProof db pid txn file
        = (.info "This payment has already been verified.", db)) ∧
    (∀ db pid now p, findPayment db pid = some p →
      p.payment_status = "paid" →
      confirmPayment db pid now
        = (.info "This payment has already been marked as paid.", db)) ∧
    (∀ actor now p, p.payment_status = "paid" →
      refundPurchasePayment actor now p = p ∧ refundOrderPayment actor now p = p) ∧
    (∀ actor now p, p.payment_status = "refunded" →
      refundPurchasePayment actor now p = p ∧ refundOrderPayment actor now p = p) ∧
    (∀ db pid staff now p, findPayment db pid = some p →
      findPayment (verifyPayment db pid staff .approve now).2 pid
        = some { p with payment_status := "paid", payment_date := some now,
                        verified_by := some staff, verified_at := some now }) ∧
    (∀ db aid reason b, findServiceBooking db aid = some b →
      b.status = "pending" → isBlank reason = false →
      ∀ p ∈ db.payments, p.service_booking = some aid →
        { p with payment_status := "refunded" }
          ∈ ((cancelAppointment db aid reason true).2).payments) := by
  refine ⟨?_, ?_, ?_, ?_, ?_, ?_⟩
  · intro db pid txn file p hfind hpaid
    unfold uploadProof
    rw [hfind]
    simp [hpaid]
  · intro db pid now p hfind hpaid
    unfold confirmPayment
    rw [hfind]
    simp [hpaid]
  · intro actor now p hpaid
    constructor <;> simp [refundPurchasePayment, refundOrderPayment, hpaid]
  · intro actor now p href
    constructor <;> simp [refundPurchasePayment, refundOrderPayment, href]
  · intro db pid staff now p hfind
    have hp := List.find?_some hfind
    have hid : p.id = pid := by simpa using hp
    have hsave : paymentSave db
        { p with payment_status := "paid", payment_date := some now,
                 verified_by := some staff, verified_at := some now } false
        = .ok (updatePayment db
        { p with payment_status := "paid", payment_date := some now,
                 verified_by := some staff, verified_at := some now }) := by
      apply paymentSave_ok_of_same_method
      · show findPayment db p.id = some p
        rw [hid]; exact hfind
      · exact Or.inr rfl
    have hmain : verifyPayment db pid staff .approve now
        = (.success, decProfileBalance (updatePayment db
            { p with payment_status := "paid", payment_date := some now,
                     verified_by := some staff, verified_at := some now })
            p.patient p.amount) := by
      unfold verifyPayment
      rw [hfind]
      dsimp only
      rw [hsave]
    rw [hmain]
    exact findPayment_updatePayment db pid p _ hfind rfl
  · intro db aid reason b hfind hst hbl p hp hlink
    have h1' : ¬ ((b.status != "pending") = true) := by simp [hst]
    have h2' : ¬ (isBlank reason = true) := by simp [hbl]
    have hmem := List.mem_map_of_mem
      (fun q => if q.service_booking == some aid
        then { q with payment_status := "refunded" } else q) hp
    unfold cancelAppointment
    rw [hfind]
    dsimp only
    rw [if_neg h1', if_neg h2', if_pos rfl]
    dsimp only
    simpa [hlink] using hmem

/-- A paid cash payment, used to exercise the stability conjuncts. -/
def exC6wp : Payment :=
  { newPayment 2 1 500 (some "cash") with payment_status := "paid" }

def exC6w : DB :=
  { DB.empty with
    payments := [exC6wp],
    profiles := [{ user := 1, total_balance := 0 }] }

theorem C6_amended_witness :
    uploadProof exC6w 2 "T1" Option.none
      = (.info "This payment has already been verified.", exC6w) ∧
    confirmPayment exC6w 2 5
      = (.info "This payment has already been marked as paid.", exC6w) ∧
    refundPurchasePayment 9 5 exC6wp = exC6wp ∧
    findPayment (verifyPayment exC6w 2 9 .approve 5).2 2
      = some { exC6wp with payment_status := "paid", payment_date := some 5,
                           verified_by := some 9, verified_at := some 5 } ∧
    { exC6cp with payment_status := "refunded" }
      ∈ ((cancelAppointment exC6c 4 "no longer needed" true).2).payments :=
  ⟨C6_amended.1 exC6w 2 "T1" Option.none exC6wp rfl rfl,
   C6_amended.2.1 exC6w 2 5 exC6wp rfl rfl,
   (C6_amended.2.2.1 9 5 exC6wp rfl).1,
   C6_amended.2.2.2.2.1 exC6w 2 9 5 exC6wp rfl,
   C6_amended.2.2.2.2.2 exC6c 4 "no longer needed"
      { id := 4, patient := 1, status := "pending", total_amount := 120000 }
      rfl rfl (by decide) exC6cp (by decide) rfl⟩

/-! ## C5 — patient self-confirmation guards -/

/-- An unpaid cash payment linked to a rental that is `active`, not yet
`returned`. -/
def exC5p : Payment :=
  { newPayment 1 1 80000 (some "cash") with equipment_rental := some 1 }

def exC5 : DB :=
  { DB.empty with
    equipment_rentals :=
      [{ id := 1, customer := 1, equipment := 1, quantity := 1,
         status := "active", total_amount := 80000 }],
    payments := [exC5p] }

/-- **C5, counterexample**: self-confirmation of the cash payment succeeds
while the linked rental is still `active` — the guard accepts `returned`
*or* `active`, so reaching the `returned` terminal is not required. -/
theorem C5_counterexample :
    (findRental exC5 1).map (·.status) = some "active" ∧
    (confirmPayment exC5 1 7).1 = .success ∧
    (findPayment (confirmPayment exC5 1 7).2 1).map (·.payment_status)
      = some "paid" ∧
    (findPayment (confirmPayment exC5 1 7).2 1).map (·.verified_by)
      = some Option.none ∧
    (findPayment (confirmPayment exC5 1 7).2 1).map (·.verified_at)
      = some (some 7) :=
  ⟨by decide, by decide, by decide, by decide, by decide⟩

/-- **C5, amended**: self-confirmation is gated per resolved domain —
`completed` for appointment-linked payments, `delivered` for pharmacy orders
and equipment purchases, `returned` **or `active`** for rentals, and not at
all for payments with no resolved link (the `service_booking` link is never
examined); a failed guard or a non-cash locked method rejects with the
database unchanged, and on success the stored payment is `paid` with
`verified_at` set, `verified_by` null, and the method locked to `cash` when
previously unset. -/
theorem C5_amended :
    (∀ db (p : Payment) i a, p.appointment = some i →
      findAppointment db i = some a →
      domainGuard db p = (a.status == "completed")) ∧
    (∀ db (p : Payment) i o, p.appointment = Option.none →
      p.pharmacy_order = some i → findPharmacyOrder db i = some o →
      domainGuard db p = (o.status == "delivered")) ∧
    (∀ db (p : Payment) i o, p.appointment = Option.none →
      p.pharmacy_order = Option.none → p.equipment_purchase = some i →
      findPurchase db i = some o →
      domainGuard db p = (o.status == "delivered")) ∧
    (∀ db (p : Payment) i r, p.appointment = Option.none →
      p.pharmacy_order = Option.none → p.equipment_purchase = Option.none →
      p.equipment_rental = some i → findRental db i = some r →
      domainGuard db p = (r.status == "returned" || r.status == "active")) ∧
    (∀ db (p : Payment), p.appointment = Option.none →
      p.pharmacy_order = Option.none → p.equipment_purchase = Option.none →
      p.equipment_rental = Option.none → domainGuard db p = true) ∧
    (∀ db pid now p, findPayment db pid = some p →
      p.payment_status ≠ "paid" → domainGuard db p = false →
      confirmPayment db pid now
        = (.rejected "Payment can only be confirmed after delivery or completion.", db)) ∧
    (∀ db pid now p, findPayment db pid = some p →
      p.payment_status ≠ "paid" → domainGuard db p = true →
      methodSet p = true → p.payment_method ≠ some "cash" →
      confirmPayment db pid now
        = (.rejected "Payment method for this record was previously set and cannot be changed to cash.", db)) ∧
    (∀ db pid now p, findPayment db pid = some p →
      p.payment_status ≠ "paid" → domainGuard db p = true →
      (methodSet p = false ∨ p.payment_method = some "cash") →
      (confirmPayment db pid now).1 = .success ∧
      findPayment (confirmPayment db pid now).2 pid
        = some { p with
            payment_method := if methodSet p then p.payment_method else some "cash",
            payment_status := "paid", payment_date := some now,
            verified_by := Option.none, verified_at := some now }) := by
  refine ⟨?_, ?_, ?_, ?_, ?_, ?_, ?_, ?_⟩
  · intro db p i a h1 hf
    simp [domainGuard, paymentDomain, h1, hf]
  · intro db p i o h1 h2 hf
    simp [domainGuard, paymentDomain, h1, h2, hf]
  · intro db p i o h1 h2 h3 hf
    simp [domainGuard, paymentDomain, h1, h2, h3, hf]
  · intro db p i r h1 h2 h3 h4 hf
    simp [domainGuard, paymentDomain, h1, h2, h3, h4, hf]
  · intro db p h1 h2 h3 h4
    simp [domainGuard, paymentDomain, h1, h2, h3, h4]
  · intro db pid now p hfind hnp hguard
    have hst : (p.payment_status == "paid") = false := by simpa using hnp
    unfold confirmPayment
    rw [hfind]
    simp [hst, hguard]
  · intro db pid now p hfind hnp hguard hms hmne
    have hst : (p.payment_status == "paid") = false := by simpa using hnp
    have h2 : (p.payment_method != some "cash") = true := by simpa using hmne
    unfold confirmPayment
    rw [hfind]
    simp [hst, hguard, hms, h2]
  · intro db pid now p hfind hnp hguard hw
    have hp := List.find?_some hfind
    have hid : p.id = pid := by simpa using hp
    have hst : (p.payment_status == "paid") = false := by simpa using hnp
    have hcond : (methodSet p && p.payment_method != some "cash") = false := by
      rcases hw with h | h
      · simp [h]
      · simp [h]
    have hsave : paymentSave db
        { p with
          payment_method := if methodSet p then p.payment_method else some "cash",
          payment_status := "paid", payment_date := some now,
          verified_by := Option.none, verified_at := some now } false
        = .ok (updatePayment db
        { p with
          payment_method := if methodSet p then p.payment_method else some "cash",
          payment_status := "paid", payment_date := some now,
          verified_by := Option.none, verified_at := some now }) := by
      apply paymentSave_ok_of_same_method
      · show findPayment db p.id = some p
        rw [hid]; exact hfind
      · rcases hw with h | h
        · exact Or.inl h
        · refine Or.inr ?_
          show (if methodSet p then p.payment_method else some "cash") = p.payment_method
          by_cases hms : methodSet p = true
          · simp [hms]
          · simp [hms, h]
    have nA : ¬ ((p.payment_status == "paid") = true) := by simp [hst]
    have nB : ¬ ((!(domainGuard db p)) = true) := by simp [hguard]
    have nC : ¬ ((methodSet p && p.payment_method != some "cash") = true) := by
      simp [hcond]
    have hmain : confirmPayment db pid now
        = (.success,
           (match paymentDomain p with
            | .appointment _ =>
              decProfileBalance (updatePayment db
                { p with
                  payment_method := if methodSet p then p.payment_method else some "cash",
                  payment_status := "paid", payment_date := some now,
                  verified_by := Option.none, verified_at := some now })
                p.patient p.amount
            | _ => updatePayment db
                { p with
                  payment_method := if methodSet p then p.payment_method else some "cash",
                  payment_status := "paid", payment_date := some now,
                  verified_by := Option.none, verified_at := some now })) := by
      unfold confirmPayment
      rw [hfind]
      dsimp only
      rw [if_neg nA, if_neg nB, if_neg nC, hsave]
    have hfp : findPayment (updatePayment db
        { p with
          payment_method := if methodSet p then p.payment_method else some "cash",
          payment_status := "paid", payment_date := some now,
          verified_by := Option.none, verified_at := some now }) pid
        = some { p with
          payment_method := if methodSet p then p.payment_method else some "cash",
          payment_status := "paid", payment_date := some now,
          verified_by := Option.none, verified_at := some now } :=
      findPayment_updatePayment db pid p _ hfind rfl
    constructor
    · rw [hmain]
    · rw [hmain]
      cases paymentDomain p <;> exact hfp

/-- An unpaid cash payment linked to a delivered pharmacy order, used to
exercise the success conjunct of `C5_amended`. -/
def exC5wp : Payment :=
  { newPayment 4 1 50000 (some "cash") with pharmacy_order := some 2 }

def exC5w : DB :=
  { DB.empty with
    pharmacy_orders :=
      [{ id := 2, customer := 1, status := "delivered", total_amount := 50000 }],
    payments := [exC5wp] }

theorem C5_amended_witness :
    domainGuard exC5w exC5wp = ("delivered" == "delivered") ∧
    ((confirmPayment exC5w 4 11).1 = .success ∧
      findPayment (confirmPayment exC5w 4 11).2 4
        = some { exC5wp with
            payment_method := if methodSet exC5wp then exC5wp.payment_method else some "cash",
            payment_status := "paid", payment_date := some 11,
            verified_by := Option.none, verified_at := some 11 }) :=
  ⟨C5_amended.2.1 exC5w exC5wp 2
      ({ id := 2, customer := 1, status := "delivered", total_amount := 50000 })
      rfl rfl rfl,
   C5_amended.2.2.2.2.2.2.2 exC5w 4 11 exC5wp rfl (by decide) (by decide)
      (Or.inr rfl)⟩

/-! ## C4 — cancellation and the refund side-effect -/

/-- Scenario C setup: a confirmed rental of `800.00` with an unpaid online
payment and no proof submitted. -/
def exC4p : Payment :=
  { newPayment 1 1 80000 (some "online") with equipment_rental := some 1 }

def exC4 : DB :=
  { DB.empty with
    equipment := [{ id := 1, available_units := 0 }],
    equipment_rentals :=
      [{ id := 1, customer := 1, equipment := 1, quantity := 1,
         status := "confirmed", total_amount := 80000 }],
    payments := [exC4p] }

/-- A pending rental with an unpaid online payment: cancellation succeeds but
the payment is not refunded. -/
def exC4b : DB :=
  { DB.empty with
    equipment := [{ id := 1, available_units := 0 }],
    equipment_rentals :=
      [{ id := 1, customer := 1, equipment := 1, quantity := 1,
         status := "pending", total_amount := 80000 }],
    payments := [exC4p] }

/-- **C4, counterexample**: Scenario C fails twice over.  A *confirmed*
rental cannot be cancelled at all (`cancel_rental` only accepts pending
rentals), so its status stays `confirmed`, the payment stays `unpaid` and
`gross_total` keeps the `800.00`; and even a *pending* rental that does get
cancelled leaves its linked payment `unpaid` — `cancel_rental`, unlike
`cancel_purchase`, has no refund side-effect. -/
theorem C4_counterexample :
    cancelRental exC4 1 5
      = (.rejected "Only pending rentals can be cancelled.", exC4) ∧
    (findRental exC4 1).map (·.status) = some "confirmed" ∧
    (findPayment exC4 1).map (·.payment_status) = some "unpaid" ∧
    bal_gross_total exC4 1 = 80000 ∧
    ((cancelRental exC4b 1 5).1 = .success ∧
      (findRental (cancelRental exC4b 1 5).2 1).map (·.status) = some "cancelled" ∧
      (findPayment (cancelRental exC4b 1 5).2 1).map (·.payment_status)
        = some "unpaid") :=
  ⟨by decide, by decide, by decide, by decide, by decide, by decide, by decide⟩

/-- **C4, amended**: pharmacy-order and equipment-purchase cancellation
refund linked payments whose status is neither `paid` nor `refunded`, and
service-booking cancellation (pending bookings, non-blank reason, ≥ 24h in
advance) bulk-refunds **every** linked payment unconditionally; but
equipment-rental cancellation is accepted only for pending rentals, sets the
rental to `cancelled` and restores inventory while leaving every payment
untouched, and a confirmed rental cannot be cancelled, so the Scenario C
expectations do not hold. -/
theorem C4_amended :
    (∀ db rid now r, findRental db rid = some r → r.status ≠ "pending" →
      cancelRental db rid now
        = (.rejected "Only pending rentals can be cancelled.", db)) ∧
    (∀ db rid now r, findRental db rid = some r → r.status = "pending" →
      (cancelRental db rid now).1 = .success ∧
      ((cancelRental db rid now).2).payments = db.payments ∧
      findRental (cancelRental db rid now).2 rid
        = some { r with status := "cancelled", cancelled_at := some now }) ∧
    (∀ db oid actor now pur, findPurchase db oid = some pur →
      pur.status = "pending" →
      (cancelPurchase db oid actor now).1 = .success ∧
      (∀ p ∈ db.payments, p.equipment_purchase = some oid →
        refundPurchasePayment actor now p ∈ ((cancelPurchase db oid actor now).2).payments)) ∧
    (∀ actor now (p : Payment), p.payment_status ≠ "paid" →
      p.payment_status ≠ "refunded" →
      (refundPurchasePayment actor now p).payment_status = "refunded" ∧
      (refundPurchasePayment actor now p).amount = p.amount ∧
      (refundPurchasePayment actor now p).equipment_purchase = p.equipment_purchase ∧
      (refundOrderPayment actor now p).payment_status = "refunded" ∧
      (refundOrderPayment actor now p).amount = p.amount ∧
      (refundOrderPayment actor now p).pharmacy_order = p.pharmacy_order) ∧
    (∀ db oid actor now o, findPharmacyOrder db oid = some o →
      o.status = "pending" →
      (cancelOrder db oid actor now).1 = .success ∧
      (∀ p ∈ db.payments, p.pharmacy_order = some oid →
        refundOrderPayment actor now p ∈ ((cancelOrder db oid actor now).2).payments)) ∧
    (∀ db aid reason inTime b, findServiceBooking db aid = some b →
      b.status = "pending" → isBlank reason = false →
      (cancelAppointment db aid reason inTime).1 = .success ∧
      (inTime = true → ∀ p ∈ db.payments, p.service_booking = some aid →
        { p with payment_status := "refunded" }
          ∈ ((cancelAppointment db aid reason inTime).2).payments) ∧
      (inTime = false →
        ((cancelAppointment db aid reason inTime).2).payments = db.payments)) := by
  refine ⟨?_, ?_, ?_, ?_, ?_, ?_⟩
  · intro db rid now r hfind hst
    have h1 : (r.status != "pending") = true := by simpa using hst
    unfold cancelRental
    rw [hfind]
    simp [h1]
  · intro db rid now r hfind hst
    have h1 : (r.status != "pending") = false := by simpa using hst
    have hr := List.find?_some hfind
    have hrid : r.id = rid := by simpa using hr
    have hmain : cancelRental db rid now
        = (.success,
           (match findEquipment
               (updateRental db { r with status := "cancelled", cancelled_at := some now })
               r.equipment with
            | some e => updateEquipment
                (updateRental db { r with status := "cancelled", cancelled_at := some now })
                { e with available_units := e.available_units + (r.quantity : Int) }
            | none => updateRental db { r with status := "cancelled", cancelled_at := some now })) := by
      unfold cancelRental
      rw [hfind]
      have h1' : ¬ ((r.status != "pending") = true) := by simp [h1]
      dsimp only
      rw [if_neg h1']
    refine ⟨by rw [hmain], ?_, ?_⟩
    · rw [hmain]
      cases findEquipment
          (updateRental db { r with status := "cancelled", cancelled_at := some now })
          r.equipment <;> rfl
    · rw [hmain]
      have hfr : findRental
          (updateRental db { r with status := "cancelled", cancelled_at := some now }) rid
          = some { r with status := "cancelled", cancelled_at := some now } := by
        have h' : db.equipment_rentals.find? (fun a => a.id == rid) = some r := hfind
        show (db.equipment_rentals.map
            (fun q => if q.id == ({ r with status := "cancelled", cancelled_at := some now } : EquipmentRental).id
              then { r with status := "cancelled", cancelled_at := some now } else q)).find?
            (fun a => a.id == rid)
          = some { r with status := "cancelled", cancelled_at := some now }
        exact find?_map_update (fun x : EquipmentRental => x.id) db.equipment_rentals rid r
          { r with status := "cancelled", cancelled_at := some now } h' rfl
      cases findEquipment
          (updateRental db { r with status := "cancelled", cancelled_at := some now })
          r.equipment <;> exact hfr
  · intro db oid actor now pur hfind hst
    have h1' : ¬ ((pur.status != "pending") = true) := by simp [hst]
    constructor
    · unfold cancelPurchase
      rw [hfind]
      dsimp only
      rw [if_neg h1']
    · intro p hp hlink
      have hmem := List.mem_map_of_mem
        (fun q => if q.equipment_purchase == some oid
          then refundPurchasePayment actor now q else q) hp
      unfold cancelPurchase
      rw [hfind]
      dsimp only
      rw [if_neg h1']
      dsimp only
      cases hfe : findEquipment (updatePurchase db { pur with status := "cancelled" })
          pur.equipment with
      | none =>
        dsimp only
        simpa [hlink] using hmem
      | some e =>
        dsimp only
        simpa [hlink] using hmem
  · intro actor now p h1 h2
    have hb1 : (p.payment_status != "refunded") = true := by simpa using h2
    have hb2 : (p.payment_status != "paid") = true := by simpa using h1
    refine ⟨?_, ?_, ?_, ?_, ?_, ?_⟩ <;>
      simp [refundPurchasePayment, refundOrderPayment, hb1, hb2]
  · intro db oid actor now o hfind hst
    have h1' : ¬ ((o.status != "pending") = true) := by simp [hst]
    constructor
    · unfold cancelOrder
      rw [hfind]
      dsimp only
      rw [if_neg h1']
    · intro p hp hlink
      have hmem := List.mem_map_of_mem
        (fun q => if q.pharmacy_order == some oid
          then refundOrderPayment actor now q else q) hp
      unfold cancelOrder
      rw [hfind]
      dsimp only
      rw [if_neg h1']
      dsimp only
      simpa [hlink] using hmem
  · intro db aid reason inTime b hfind hst hbl
    have h1' : ¬ ((b.status != "pending") = true) := by simp [hst]
    have h2' : ¬ (isBlank reason = true) := by simp [hbl]
    refine ⟨?_, ?_, ?_⟩
    · cases inTime with
      | true =>
        unfold cancelAppointment
        rw [hfind]
        dsimp only
        rw [if_neg h1', if_neg h2', if_pos rfl]
      | false =>
        unfold cancelAppointment
        rw [hfind]
        dsimp only
        rw [if_neg h1', if_neg h2', if_neg (by simp)]
    · intro hT p hp hlink
      subst hT
      have hmem := List.mem_map_of_mem
        (fun q => if q.service_booking == some aid
          then { q with payment_status := "refunded" } else q) hp
      unfold cancelAppointment
      rw [hfind]
      dsimp only
      rw [if_neg h1', if_neg h2', if_pos rfl]
      dsimp only
      simpa [hlink] using hmem
    · intro hF
      subst hF
      unfold cancelAppointment
      rw [hfind]
      dsimp only
      rw [if_neg h1', if_neg h2', if_neg (by simp)]
      rfl

/-- A pending purchase of `300.00` with an unpaid cash payment, and a pending
rental, to exercise the amended cancellation behaviour. -/
def exC4wp : Payment :=
  { newPayment 3 1 30000 (some "cash") with equipment_purchase := some 2 }

/-- A paid online payment linked to a pending service booking. -/
def exC4bp : Payment :=
  { newPayment 9 1 120000 (some "online") with
    payment_status := "paid", service_booking := some 7 }

/-- A method-less unpaid payment linked to a pending pharmacy order. -/
def exC4pp : Payment :=
  { newPayment 11 1 7000 Option.none with pharmacy_order := some 5 }

def exC4w : DB :=
  { DB.empty with
    equipment := [{ id := 1, available_units := 1 }],
    equipment_purchases :=
      [{ id := 2, customer := 1, equipment := 1, quantity := 1,
         status := "pending", total_amount := 30000 }],
    equipment_rentals :=
      [{ id := 1, customer := 1, equipment := 1, quantity := 1,
         status := "pending", total_amount := 80000 }],
    service_bookings :=
      [{ id := 7, patient := 1, status := "pending", total_amount := 120000 }],
    pharmacy_orders :=
      [{ id := 5, customer := 1, status := "pending", total_amount := 7000 }],
    payments := [exC4wp, exC4bp, exC4pp] }

theorem C4_amended_witness :
    ((cancelRental exC4w 1 5).1 = .success ∧
      ((cancelRental exC4w 1 5).2).payments = exC4w.payments ∧
      findRental (cancelRental exC4w 1 5).2 1
        = some { id := 1, customer := 1, equipment := 1, quantity := 1,
                 status := "cancelled", total_amount := 80000,
                 cancelled_at := some 5 }) ∧
    ((cancelPurchase exC4w 2 1 5).1 = .success ∧
      refundPurchasePayment 1 5 exC4wp ∈ ((cancelPurchase exC4w 2 1 5).2).payments) ∧
    (refundPurchasePayment 1 5 exC4wp).payment_status = "refunded" ∧
    refundOrderPayment 1 5 exC4pp ∈ ((cancelOrder exC4w 5 1 5).2).payments ∧
    { exC4bp with payment_status := "refunded" }
      ∈ ((cancelAppointment exC4w 7 "schedule conflict" true).2).payments :=
  ⟨C4_amended.2.1 exC4w 1 5
      { id := 1, customer := 1, equipment := 1, quantity := 1,
        status := "pending", total_amount := 80000 } rfl rfl,
   ⟨(C4_amended.2.2.1 exC4w 2 1 5
      { id := 2, customer := 1, equipment := 1, quantity := 1,
        status := "pending", total_amount := 30000 } rfl rfl).1,
    (C4_amended.2.2.1 exC4w 2 1 5
      { id := 2, customer := 1, equipment := 1, quantity := 1,
        status := "pending", total_amount := 30000 } rfl rfl).2 exC4wp
      (by decide) rfl⟩,
   (C4_amended.2.2.2.1 1 5 exC4wp (by decide) (by decide)).1,
   (C4_amended.2.2.2.2.1 exC4w 5 1 5
      { id := 5, customer := 1, status := "pending", total_amount := 7000 }
      rfl rfl).2 exC4pp (by decide) rfl,
   (C4_amended.2.2.2.2.2 exC4w 7 "schedule conflict" true
      { id := 7, patient := 1, status := "pending", total_amount := 120000 }
      rfl rfl (by decide)).2.1 rfl exC4bp (by decide) rfl⟩

/-! ## C8 — the actionable-unpaid formula and Scenario B -/

/-- The claim's reading of "proof submitted": a proof file, a non-empty
`transaction_id`, or a non-empty proof URL — under which a NULL URL is *not*
a non-empty proof URL.  Kept separate from `proofSubmitted`, which models
the queryset semantics where a NULL URL counts. -/
def spec_proof_submitted (p : Payment) : Bool :=
  p.payment_proof_file.isSome || p.transaction_id != "" ||
    (match p.payment_proof_url with
     | some u => u != ""
     | none => false)

/-- The claim's formula for `actionable_unpaid`, written from the spec text
for refinement comparison: unpaid payments of the user, excluding cash-method
entries and online-method entries with proof submitted — and nothing else. -/
def spec_actionable_unpaid (db : DB) (u : Nat) : Money :=
  sumAmounts (db.payments.filter (fun p =>
    p.patient == u && p.payment_status == "unpaid" &&
    !(p.payment_method == some "cash") &&
    !(p.payment_method == some "online" && spec_proof_submitted p)))

/-- A method-less unpaid payment of `100.00` linked to a cancelled pharmacy
order. -/
def exC8 : DB :=
  { DB.empty with
    pharmacy_orders :=
      [{ id := 1, customer := 1, status := "cancelled", total_amount := 10000 }],
    payments := [{ newPayment 1 1 10000 Option.none with pharmacy_order := some 1 }] }

/-- A freshly created unpaid online payment: NULL proof URL, empty
transaction id, no proof file. -/
def exC8n : DB :=
  { DB.empty with payments := [newPayment 2 1 20000 (some "online")] }

/-- **C8, counterexample**: the claimed equality fails twice.  The spec
formula counts the cancelled-linked payment (`100.00`) that both implemented
actionable-unpaid sums exclude; and a fresh unpaid online payment with NULL
proof URL, empty transaction id and no file (`200.00`) is counted by the
spec formula but excluded by both implementations (and counted in
`online_pending`), because the negated lookup on the nullable URL treats
NULL as proof submitted. -/
theorem C8_counterexample :
    spec_actionable_unpaid exC8 1 = 10000 ∧
    bal_total_unpaid exC8 1 = 0 ∧
    dash_total_unpaid exC8 1 = 0 ∧
    spec_actionable_unpaid exC8n 1 = 20000 ∧
    bal_total_unpaid exC8n 1 = 0 ∧
    dash_total_unpaid exC8n 1 = 0 ∧
    online_pending exC8n 1 = 20000 :=
  ⟨by decide, by decide, by decide, by decide, by decide, by decide, by decide⟩

/-- Pointwise equivalence of the balance page's chained actionable-unpaid
exclusions with a single conjunctive predicate. -/
theorem bal_actionable_pred_eq (db : DB) (u : Nat) (p : Payment) :
    ((p.patient == u && p.payment_status == "unpaid") &&
      !(p.payment_method == some "cash" && p.payment_status == "unpaid") &&
      !(p.payment_method == some "online" && p.payment_status == "unpaid" &&
        proofSubmitted p) &&
      !(apptCancelled db p || poCancelled db p || epCancelled db p || erCancelled db p))
    = (p.patient == u && p.payment_status == "unpaid" &&
      !(p.payment_method == some "cash") &&
      !(p.payment_method == some "online" && proofSubmitted p) &&
      !(apptCancelled db p) && !(poCancelled db p) &&
      !(epCancelled db p) && !(erCancelled db p)) := by
  cases h1 : (p.patient == u) <;> cases h2 : (p.payment_status == "unpaid") <;>
  cases h3 : (p.payment_method == some "cash") <;>
  cases h4 : (p.payment_method == some "online") <;>
  cases h5 : proofSubmitted p <;>
  cases h6 : apptCancelled db p <;> cases h7 : poCancelled db p <;>
  cases h8 : epCancelled db p <;> cases h9 : erCancelled db p <;> rfl

/-- Pointwise equivalence for the dashboard variant, which also excludes the
`service_booking` link. -/
theorem dash_actionable_pred_eq (db : DB) (u : Nat) (p : Payment) :
    ((p.patient == u && p.payment_status == "unpaid") &&
      !(p.payment_method == some "cash" && p.payment_status == "unpaid") &&
      !(p.payment_method == some "online" && p.payment_status == "unpaid" &&
        proofSubmitted p) &&
      !(apptCancelled db p || sbCancelled db p || poCancelled db p ||
        epCancelled db p || erCancelled db p))
    = (p.patient == u && p.payment_status == "unpaid" &&
      !(p.payment_method == some "cash") &&
      !(p.payment_method == some "online" && proofSubmitted p) &&
      !(apptCancelled db p) && !(sbCancelled db p) && !(poCancelled db p) &&
      !(epCancelled db p) && !(erCancelled db p)) := by
  cases h1 : (p.patient == u) <;> cases h2 : (p.payment_status == "unpaid") <;>
  cases h3 : (p.payment_method == some "cash") <;>
  cases h4 : (p.payment_method == some "online") <;>
  cases h5 : proofSubmitted p <;>
  cases h6 : apptCancelled db p <;> cases h0 : sbCancelled db p <;>
  cases h7 : poCancelled db p <;>
  cases h8 : epCancelled db p <;> cases h9 : erCancelled db p <;> rfl

/-- Scenario B: one pending pharmacy order of `500.00` with an unpaid cash
payment of `500.00`. -/
def exC8b : DB :=
  { DB.empty with
    pharmacy_orders :=
      [{ id := 1, customer := 1, status := "pending", total_amount := 50000 }],
    payments := [{ newPayment 1 1 50000 (some "cash") with pharmacy_order := some 1 }] }

/-- **C8, amended**: the implemented actionable-unpaid figures equal the
sum over unpaid payments excluding cash-method entries, online-method
entries the code treats as proof-submitted (a proof file, a non-empty
transaction id, or a proof URL that is not the empty string — a NULL URL
also counts, by the negated-lookup NULL semantics), and payments linked to
cancelled chargeables — four links (appointment, pharmacy order, equipment
purchase, rental) on the balance page, five (additionally service booking)
on the dashboard.  Scenario B evaluates exactly as claimed. -/
theorem C8_amended :
    (∀ db u, bal_total_unpaid db u
      = sumAmounts (db.payments.filter (fun p =>
          p.patient == u && p.payment_status == "unpaid" &&
          !(p.payment_method == some "cash") &&
          !(p.payment_method == some "online" && proofSubmitted p) &&
          !(apptCancelled db p) && !(poCancelled db p) &&
          !(epCancelled db p) && !(erCancelled db p)))) ∧
    (∀ db u, dash_total_unpaid db u
      = sumAmounts (db.payments.filter (fun p =>
          p.patient == u && p.payment_status == "unpaid" &&
          !(p.payment_method == some "cash") &&
          !(p.payment_method == some "online" && proofSubmitted p) &&
          !(apptCancelled db p) && !(sbCancelled db p) && !(poCancelled db p) &&
          !(epCancelled db p) && !(erCancelled db p)))) ∧
    (bal_gross_total exC8b 1 = 50000 ∧ total_paid exC8b 1 = 0 ∧
      bal_net_unpaid exC8b 1 = 50000 ∧ bal_total_unpaid exC8b 1 = 0 ∧
      dash_total_unpaid exC8b 1 = 0 ∧ cash_total exC8b 1 = 50000 ∧
      dash_gross_total exC8b 1 = 50000 ∧ dash_net_unpaid exC8b 1 = 50000) := by
  refine ⟨?_, ?_, ?_⟩
  · intro db u
    unfold bal_total_unpaid bal_total_unpaid_list
    rw [filter_chain4]
    exact congrArg sumAmounts
      (List.filter_congr (fun p _ => bal_actionable_pred_eq db u p))
  · intro db u
    unfold dash_total_unpaid dash_total_unpaid_list
    rw [filter_chain4]
    exact congrArg sumAmounts
      (List.filter_congr (fun p _ => dash_actionable_pred_eq db u p))
  · exact ⟨by decide, by decide, by decide, by decide, by decide, by decide,
      by decide, by decide⟩

end UhCare
